import Mathlib

/-!
# perf: exporter construction, lifecycle and console formatting

A shallow embedding of `perf/stackdriver.go` and `perf/metrics.go`.

* Process environment, the cloud metadata service and the Stackdriver client
  constructor are external; they are inputs of the model (`Sys`), and every
  call made to them is recorded, in order, in a call log.
* The process-wide OpenCensus registries (views, view exporters, trace
  exporters, trace configuration) are an explicit state (`World`) that
  `Start` and `Stop` transform.
* The standard logger is a list of messages, one entry per `log` call.
-/

set_option autoImplicit false
set_option linter.dupNamespace false

namespace Perf

/-! ## Errors -/

/-- A Go `error` value. A plain error has one cause; an error built by
`multierr.Combine` from several failures carries all their causes, in order. -/
structure Err where
  causes : List String
  deriving DecidableEq, Repr

/-- The outcome of a fallible external call: `(value, err)` in Go. -/
inductive Res (α : Type) where
  | ok (v : α)
  | error (e : Err)
  deriving DecidableEq, Repr

/-! ## Cloud exporter construction (`stackdriver.go`, lines 18-98, 129-145) -/

/-- The constant `envVarStackDriverProjectID`. -/
def envVarStackDriverProjectID : String := "STACKDRIVER_PROJECT_ID"

/-- The struct `gaeResource`. -/
structure gaeResource where
  projectID : String
  module : String
  version : String
  instanceID : String
  location : String
  deriving DecidableEq, Repr

/-- The method `(*gaeResource).MonitoredResource`: the resource type and the
label map, the latter as the list of its key/value entries. -/
def gaeResource.MonitoredResource (r : gaeResource) : String × List (String × String) :=
  ("gae_instance",
    [ ("project_id", r.projectID),
      ("module_id", r.module),
      ("version_id", r.version),
      ("instance_id", r.instanceID),
      ("location", r.location) ])

/-- Lookup in a label map given by its entries. -/
def labelOf (labels : List (String × String)) (key : String) : Option String :=
  (labels.find? (fun kv => kv.1 == key)).map Prod.snd

/-- The fields of `stackdriver.Options` that `NewCloudExporter` sets. `context`
and `onError` identify the context and the logger captured by the `OnError`
closure; `reportingInterval` is a `time.Duration` in nanoseconds; an unset
pointer/interface field is `none`, an unset string is `""`. -/
structure Options where
  context : Nat
  onError : Nat
  reportingInterval : Nat
  metricPrefix : String
  projectID : String
  monitoredResource : Option gaeResource
  defaultMonitoringLabels : Option (List (String × String))
  deriving DecidableEq, Repr

/-- The struct `sdExporter`: a wrapper around the Stackdriver client handle. -/
structure sdExporter where
  sdExporter : Nat
  deriving DecidableEq, Repr

/-- Everything outside the program that `NewCloudExporter` consults.
`getenv` is `os.Getenv` (an unset variable reads as `""`); `zone n` and
`instanceID n` are what the metadata service answers to the `n`-th call
(counting from 0) of `metadata.Zone()` and `metadata.InstanceID()`;
`newExporter` is `stackdriver.NewExporter`. -/
structure Sys where
  getenv : String → String
  zone : Nat → Res String
  instanceID : Nat → Res String
  newExporter : Options → Res Nat

/-- One call to an external service, with what it returned. -/
inductive Call where
  | metadataZone (r : Res String)
  | metadataInstanceID (r : Res String)
  | newExporter (o : Options) (r : Res Nat)
  deriving DecidableEq, Repr

/-- Whether a logged call is a metadata lookup. -/
def Call.isMetadata : Call → Bool
  | .metadataZone _ => true
  | .metadataInstanceID _ => true
  | .newExporter _ _ => false

/-- Whether a logged call is a `metadata.Zone()` lookup. -/
def Call.isZone : Call → Bool
  | .metadataZone _ => true
  | _ => false

/-- Performs `metadata.Zone()`: answers with the next response of the service
and logs the call. -/
def metadataZone (sys : Sys) (log : List Call) : Res String × List Call :=
  let r := sys.zone (log.countP Call.isZone)
  (r, log ++ [Call.metadataZone r])

/-- The constant `time.Second`, in nanoseconds. -/
def second : Nat := 1000000000

/-- The call `path.Join(elems...)` for elements that are already clean:
the non-empty elements joined by a slash. -/
def pathJoin (elems : List String) : String :=
  "/".intercalate (elems.filter (fun s => s ≠ ""))

/-- Lines 88-97 of `NewCloudExporter`: build the Stackdriver client from the
finished options and wrap it. -/
def finishCloudExporter (sys : Sys) (sdOpts : Options) (log : List Call) :
    Res sdExporter × List Call :=
  match sys.newExporter sdOpts with
  | .error err => (.error err, log ++ [Call.newExporter sdOpts (.error err)])
  | .ok sd => (.ok { sdExporter := sd }, log ++ [Call.newExporter sdOpts (.ok sd)])

/-- Lines 32-45 of `NewCloudExporter`: the initial options, with the project
taken from `STACKDRIVER_PROJECT_ID` when that is set. -/
def baseOptions (sys : Sys) (ctx logger : Nat) : Options :=
  let sdOpts : Options :=
    { context := ctx
      onError := logger
      reportingInterval := 60 * second
      metricPrefix := pathJoin ["app.viam.com", "opencensus"]
      projectID := ""
      monitoredResource := none
      defaultMonitoringLabels := none }
  if sys.getenv envVarStackDriverProjectID ≠ "" then
    { sdOpts with projectID := sys.getenv envVarStackDriverProjectID }
  else sdOpts

/-- Lines 78-85 of `NewCloudExporter`: attach the monitored resource built
from the environment and the resolved zone and instance id, and empty default
monitoring labels. -/
def attachResource (sys : Sys) (sdOpts : Options) (zone instanceID : String) : Options :=
  { sdOpts with
    monitoredResource := some
      { projectID := sys.getenv envVarStackDriverProjectID
        module := sys.getenv "K_SERVICE"
        version := sys.getenv "K_REVISION"
        instanceID := instanceID
        location := zone }
    defaultMonitoringLabels := some [] }

/-- The function `NewCloudExporter`. Returns the Go result pair (as a `Res`:
`error err` is `(nil, err)`, `ok e` is `(&e, nil)`) and the log of the external
calls made. -/
def NewCloudExporter (sys : Sys) (ctx logger : Nat) : Res sdExporter × List Call :=
  let sdOpts : Options := baseOptions sys ctx logger
  if sys.getenv "K_SERVICE" ≠ "" then
    let zone := sys.getenv "GCP_COMPUTE_ZONE"
    match (if zone = "" then metadataZone sys [] else (Res.ok zone, [])) with
    | (.error err, log) => (.error err, log)
    | (.ok zone, log) =>
      let instanceID := sys.getenv "GCP_INSTANCE_ID"
      match (if instanceID = "" then metadataZone sys log else (Res.ok instanceID, log)) with
      | (.error err, log) => (.error err, log)
      | (.ok instanceID, log) =>
        let sdOpts : Options := attachResource sys sdOpts zone instanceID
        finishCloudExporter sys sdOpts log
  else
    finishCloudExporter sys sdOpts []

/-- The options handed to `stackdriver.NewExporter`, read off the call log
(`none` when the constructor was never called). -/
def passedOptions (log : List Call) : Option Options :=
  log.findSome? (fun c => match c with
    | .newExporter o _ => some o
    | _ => none)

/-- Claim wording "an override is empty and the metadata lookup performed
for it fails", on the inputs, with `e` the error of that lookup. With
`K_SERVICE` set: the zone override is empty and the first lookup fails; or the
zone override is set, the instance-id override is empty and the first lookup
fails; or both overrides are empty, the first lookup answers and the second
fails. -/
def metadataLookupFails (sys : Sys) (e : Err) : Prop :=
  sys.getenv "K_SERVICE" ≠ "" ∧
  ((sys.getenv "GCP_COMPUTE_ZONE" = "" ∧ sys.zone 0 = .error e) ∨
   (sys.getenv "GCP_COMPUTE_ZONE" ≠ "" ∧ sys.getenv "GCP_INSTANCE_ID" = "" ∧
      sys.zone 0 = .error e) ∨
   (sys.getenv "GCP_COMPUTE_ZONE" = "" ∧ sys.getenv "GCP_INSTANCE_ID" = "" ∧
      (∃ z, sys.zone 0 = .ok z) ∧ sys.zone 1 = .error e))

/-- An environment given by the list of its set variables. -/
def envOf (vars : List (String × String)) (key : String) : String :=
  match vars.find? (fun kv => kv.1 == key) with
  | some kv => kv.2
  | none => ""

/-! ## Process-wide registries and the exporter lifecycle
(`stackdriver.go`, lines 100-127 and 147-177; `metrics.go`, lines 11-17) -/

/-- An OpenCensus view: its name, and the rest of its definition (measure,
aggregation, tag keys) as one value. -/
structure View where
  name : String
  definition : String
  deriving DecidableEq, Repr

/-- A trace sampler; `defaultSampler` is the one a process starts with. -/
inductive Sampler where
  | defaultSampler
  | AlwaysSample
  | NeverSample
  deriving DecidableEq, Repr

/-- The process-wide state touched by `Start` and `Stop`. Exporters are
identified by a number (the identity of the Go pointer); the two exporter
registries are sets, as the Go maps keyed by exporter are. -/
structure World where
  /-- the view registry of `stats/view` -/
  views : List View
  /-- the view-exporter registry of `stats/view` -/
  viewExporters : Finset Nat
  /-- the trace-exporter registry of `trace` -/
  traceExporters : Finset Nat
  /-- the `DefaultSampler` of the trace configuration -/
  defaultSampler : Sampler
  /-- Stackdriver clients whose periodic metrics export is running -/
  metricsExporting : Finset Nat
  /-- Stackdriver clients flushed so far, in order -/
  flushed : List Nat
  /-- Stackdriver clients closed so far -/
  closed : Finset Nat
  /-- messages written to `golog.Global` at error level -/
  errorLog : List String
  deriving DecidableEq

/-- Code the lifecycle calls but whose body is not among the sources.
`registerGrpcViews` and `registerHTTPViews` are the two helpers of this
package that register the gRPC and the HTTP instrumentation views with the
view registry: each maps the registry to its error result and the registry it
leaves. `startMetricsExporter sd` and `tryClose sd` are the results of
`(*stackdriver.Exporter).StartMetricsExporter` and of `utils.TryClose` on the
client `sd`. -/
structure Deps where
  registerGrpcViews : List View → Option Err × List View
  registerHTTPViews : List View → Option Err × List View
  startMetricsExporter : Nat → Option Err
  tryClose : Nat → Option Err

/-- The call `multierr.Combine(errs...)`: `nil` when every argument is `nil`,
the argument itself when exactly one is not, otherwise one error carrying the
causes of all of them in order. -/
def multierrCombine (errs : List (Option Err)) : Option Err :=
  match errs.filterMap id with
  | [] => none
  | [e] => some e
  | es => some { causes := (es.map Err.causes).flatten }

/-- The method `Error()` of an error: its causes separated by `; `. -/
def Err.Error (e : Err) : String :=
  "; ".intercalate e.causes

/-- The function `registerApplicationViews`. Both helpers run, the first one
first, before `multierr.Combine` sees their results. -/
def registerApplicationViews (d : Deps) (w : World) : Option Err × World :=
  let r1 := d.registerGrpcViews w.views
  let r2 := d.registerHTTPViews r1.2
  (multierrCombine [r1.1, r2.1], { w with views := r2.2 })

/-- The call `view.RegisterExporter(e)`. -/
def viewRegisterExporter (e : Nat) (w : World) : World :=
  { w with viewExporters := insert e w.viewExporters }

/-- The call `view.UnregisterExporter(e)`. -/
def viewUnregisterExporter (e : Nat) (w : World) : World :=
  { w with viewExporters := w.viewExporters.erase e }

/-- The call `trace.RegisterExporter(e)`. -/
def traceRegisterExporter (e : Nat) (w : World) : World :=
  { w with traceExporters := insert e w.traceExporters }

/-- The call `trace.UnregisterExporter(e)`. -/
def traceUnregisterExporter (e : Nat) (w : World) : World :=
  { w with traceExporters := w.traceExporters.erase e }

/-- The call `trace.ApplyConfig(trace.Config{DefaultSampler: s})`: only the
fields that are set in the argument are applied. -/
def traceApplyConfig (s : Option Sampler) (w : World) : World :=
  match s with
  | some s => { w with defaultSampler := s }
  | none => w

/-- The method `(*stackdriver.Exporter).StartMetricsExporter`. -/
def StartMetricsExporter (d : Deps) (sd : Nat) (w : World) : Option Err × World :=
  match d.startMetricsExporter sd with
  | some err => (some err, w)
  | none => (none, { w with metricsExporting := insert sd w.metricsExporting })

/-- The method `(*stackdriver.Exporter).StopMetricsExporter`. -/
def StopMetricsExporter (sd : Nat) (w : World) : World :=
  { w with metricsExporting := w.metricsExporting.erase sd }

/-- The method `(*stackdriver.Exporter).Flush`. -/
def Flush (sd : Nat) (w : World) : World :=
  { w with flushed := w.flushed ++ [sd] }

/-- The call `utils.TryClose(ctx, sd)`. -/
def TryClose (d : Deps) (sd : Nat) (w : World) : Option Err × World :=
  match d.tryClose sd with
  | some err => (some err, w)
  | none => (none, { w with closed := insert sd w.closed })

/-- The method `(*sdExporter).Start`. -/
def sdExporter.Start (d : Deps) (e : Perf.sdExporter) (w : World) : Option Err × World :=
  match registerApplicationViews d w with
  | (some err, w) => (some err, w)
  | (none, w) =>
    match StartMetricsExporter d e.sdExporter w with
    | (some err, w) => (some err, w)
    | (none, w) =>
      let w := traceRegisterExporter e.sdExporter w
      let w := traceApplyConfig (some Sampler.AlwaysSample) w
      (none, w)

/-- The method `(*sdExporter).Stop`. -/
def sdExporter.Stop (d : Deps) (e : Perf.sdExporter) (w : World) : World :=
  let w := StopMetricsExporter e.sdExporter w
  let w := traceUnregisterExporter e.sdExporter w
  let w := Flush e.sdExporter w
  match TryClose d e.sdExporter w with
  | (some err, w) =>
    { w with errorLog := w.errorLog ++ ["Failed to close Stackdriver Exporter: " ++ err.Error] }
  | (none, w) => w

/-- The struct `printExporter`: the identities of its two console exporters. -/
structure printExporter where
  metric : Nat
  trace : Nat
  deriving DecidableEq, Repr

/-- The method `(*printExporter).Start`. -/
def printExporter.Start (d : Deps) (e : printExporter) (w : World) : Option Err × World :=
  match registerApplicationViews d w with
  | (some err, w) => (some err, w)
  | (none, w) =>
    let w := viewRegisterExporter e.metric w
    let w := traceRegisterExporter e.trace w
    let w := traceApplyConfig (some Sampler.AlwaysSample) w
    (none, w)

/-- The method `(*printExporter).Stop`. -/
def printExporter.Stop (e : printExporter) (w : World) : World :=
  let w := viewUnregisterExporter e.metric w
  let w := traceUnregisterExporter e.trace w
  w

/-- The call `view.Register(vs...)` of OpenCensus on the view registry: a
view whose name is free is added; one already registered under the same
name and with the same contents is left alone; one whose name is taken by
other contents is reported and skipped, and the remaining views are still
processed. The report quotes the view name as `%q` does for a name without
characters that need escaping. -/
def viewRegister (vs : List View) (reg : List View) : Option Err × List View :=
  let step := fun (acc : List String × List View) (v : View) =>
    match acc.2.find? (fun x => x.name == v.name) with
    | some x =>
      if x = v then acc
      else (acc.1 ++ [v.name ++ ": cannot register view \"" ++ v.name
              ++ "\"; a different view with the same name is already registered"], acc.2)
    | none => (acc.1, acc.2 ++ [v])
  let r := vs.foldl step ([], reg)
  (if r.1 = [] then none else some { causes := [ "\n".intercalate r.1 ] }, r.2)

/-- Modelled from the spec: `registerGrpcViews` and `registerHTTPViews` are
not among the sources; the spec (section 2) has them register the gRPC and the
HTTP instrumentation views with the global view registry. This instance does
so with `view.Register`, for the given views, with a Stackdriver client that
starts and closes without error. -/
def depsOf (grpcViews httpViews : List View) : Deps :=
  { registerGrpcViews := viewRegister grpcViews
    registerHTTPViews := viewRegister httpViews
    startMetricsExporter := fun _ => none
    tryClose := fun _ => none }

/-- A process in which nothing has been registered yet. -/
def World.fresh : World :=
  { views := []
    viewExporters := ∅
    traceExporters := ∅
    defaultSampler := Sampler.defaultSampler
    metricsExporting := ∅
    flushed := []
    closed := ∅
    errorLog := [] }

/-! ## Console exporter (`metrics.go`, lines 19-59) -/

/-- The constant `indent`. -/
def indent : String := "  "

/-- The wall-clock reading of a `time.Time`. -/
structure Time where
  hour : Fin 24
  minute : Fin 60
  second : Fin 60
  deriving DecidableEq, Repr

/-- A number below 100 as two decimal digits. -/
def twoDigits (n : Nat) : String :=
  String.mk [Nat.digitChar (n / 10 % 10), Nat.digitChar (n % 10)]

/-- The call `t.Format("15:04:05")`. -/
def Time.Format (t : Time) : String :=
  twoDigits t.hour ++ ":" ++ twoDigits t.minute ++ ":" ++ twoDigits t.second

/-- The formatting of a `float64` (values of type `F`) by the verbs `%.1f`
and `%v` of package `fmt`. -/
structure FloatFmt (F : Type) where
  f1 : F → String
  v : F → String

/-- The interface `view.AggregationData`, held by non-nil pointer: the four
aggregation types the exporter knows, with the fields it reads, and `other`
for every other value of the interface. -/
inductive AggregationData (F : Type) where
  | DistributionData (Min Max Mean : F)
  | CountData (Value : Int)
  | SumData (Value : F)
  | LastValueData (Value : F)
  | other
  deriving DecidableEq, Repr

/-- A `tag.Tag`: the name of its key and its value. -/
structure Tag where
  Key : String
  Value : String
  deriving DecidableEq, Repr

/-- A `view.Row`. -/
structure Row (F : Type) where
  Tags : List Tag
  Data : AggregationData F

/-- A `view.Data`: `Name` is `vd.View.Name`. -/
structure Data (F : Type) where
  Name : String
  End : Time
  Rows : List (Row F)

/-- The verb `%-Ns` applied to a string: the string, then spaces up to a
width of `N` characters. -/
def leftJustify (width : Nat) (s : String) : String :=
  s ++ String.mk (List.replicate (width - s.length) ' ')

/-- The verb `%v` applied to an `int64`. -/
def fmtInt (i : Int) : String :=
  toString i

/-- Lines 42-52 of `ExportView`: the summary `info` of a row's data. -/
def info {F : Type} (fmt : FloatFmt F) : AggregationData F → String
  | .DistributionData Min Max Mean =>
    "distribution: min=" ++ fmt.f1 Min ++ " max=" ++ fmt.f1 Max ++ " mean=" ++ fmt.f1 Mean
  | .CountData Value => "count:        value=" ++ fmtInt Value
  | .SumData Value => "sum:          value=" ++ fmt.v Value
  | .LastValueData Value => "last:         value=" ++ fmt.v Value
  | .other => ""

/-- The calls `log.Printf` and `log.Println` on the standard logger: the
formatted message is appended to the log. -/
def logWrite (log : List String) (msg : String) : List String :=
  log ++ [msg]

/-- The message of line 40: `Sprintf("%v %-45s", end, name)`. -/
def headerMessage (End : Time) (name : String) : String :=
  End.Format ++ " " ++ leftJustify 45 name

/-- The message of line 56: `Sprintf("%v- %v=%v\n", indent, key, value)`. -/
def tagMessage (tag : Tag) : String :=
  indent ++ "- " ++ tag.Key ++ "=" ++ tag.Value ++ "\n"

/-- The body of the outer loop of `ExportView` (lines 40-57) for one row. -/
def exportRow {F : Type} (fmt : FloatFmt F) (vd : Data F) (log : List String)
    (row : Row F) : List String :=
  let log := logWrite log (headerMessage vd.End vd.Name)
  let log := logWrite log (info fmt row.Data ++ "\n")
  row.Tags.foldl (fun log tag => logWrite log (tagMessage tag)) log

/-- The method `(*PrintExporter).ExportView`: the standard logger's messages
after the call, given those before it. -/
def ExportView {F : Type} (fmt : FloatFmt F) (vd : Data F) (log : List String) :
    List String :=
  vd.Rows.foldl (exportRow fmt vd) log

/-- Containment of one text in another, as a contiguous run of characters. -/
def containsText (s part : String) : Prop :=
  part.data <:+: s.data

instance (s part : String) : Decidable (containsText s part) :=
  inferInstanceAs (Decidable (part.data <:+: s.data))

/-- Spec wording "left-padded to a width of N characters": spaces first, up
to a width of `N`, then the string. -/
def specLeftPadded (width : Nat) (s : String) : String :=
  String.mk (List.replicate (width - s.length) ' ') ++ s

/-! ## Concrete inputs -/

/-- A Cloud Run host with no overrides set and a healthy metadata service. -/
def cloudRunSys : Sys :=
  { getenv := envOf [("K_SERVICE", "svc"), ("K_REVISION", "svc-00001")]
    zone := fun _ => .ok "us-central1-a"
    instanceID := fun _ => .ok "4242"
    newExporter := fun _ => .ok 7 }

/-- A Cloud Run host with both overrides set and an unreachable metadata
service. -/
def overrideSys : Sys :=
  { getenv := envOf [("K_SERVICE", "svc"), ("K_REVISION", "svc-00001"),
      ("GCP_COMPUTE_ZONE", "local-zone"), ("GCP_INSTANCE_ID", "local-1"),
      ("STACKDRIVER_PROJECT_ID", "proj")]
    zone := fun _ => .error { causes := ["metadata: unreachable"] }
    instanceID := fun _ => .error { causes := ["metadata: unreachable"] }
    newExporter := fun _ => .ok 7 }

/-- A host that is not Cloud Run (`K_SERVICE` unset), with every other
variable set and an unreachable metadata service. -/
def plainSys : Sys :=
  { getenv := envOf [("K_REVISION", "svc-00001"),
      ("GCP_COMPUTE_ZONE", "local-zone"), ("GCP_INSTANCE_ID", "local-1"),
      ("STACKDRIVER_PROJECT_ID", "proj")]
    zone := fun _ => .error { causes := ["metadata: unreachable"] }
    instanceID := fun _ => .error { causes := ["metadata: unreachable"] }
    newExporter := fun _ => .ok 7 }

/-- A Cloud Run host with no overrides set and an unreachable metadata
service. -/
def zoneDownSys : Sys :=
  { getenv := envOf [("K_SERVICE", "svc")]
    zone := fun _ => .error { causes := ["metadata: unreachable"] }
    instanceID := fun _ => .error { causes := ["metadata: unreachable"] }
    newExporter := fun _ => .ok 7 }

/-- A Cloud Run host with the zone override set, the instance-id override
unset, and an unreachable metadata service. -/
def instanceDownSys : Sys :=
  { getenv := envOf [("K_SERVICE", "svc"), ("GCP_COMPUTE_ZONE", "local-zone")]
    zone := fun _ => .error { causes := ["metadata: unreachable"] }
    instanceID := fun _ => .error { causes := ["metadata: unreachable"] }
    newExporter := fun _ => .ok 7 }

/-- A Cloud Run host with the project set, no overrides, and a healthy
metadata service that knows the zone `us-central1-a` and the instance id
`4242`. -/
def cloudRunProjSys : Sys :=
  { getenv := envOf [("K_SERVICE", "svc"), ("K_REVISION", "svc-00001"),
      ("STACKDRIVER_PROJECT_ID", "proj")]
    zone := fun _ => .ok "us-central1-a"
    instanceID := fun _ => .ok "4242"
    newExporter := fun _ => .ok 7 }

/-- A Cloud Run host with both overrides set and a Stackdriver client that
cannot be built. -/
def clientDownSys : Sys :=
  { getenv := envOf [("K_SERVICE", "svc"), ("GCP_COMPUTE_ZONE", "local-zone"),
      ("GCP_INSTANCE_ID", "local-1")]
    zone := fun _ => .ok "us-central1-a"
    instanceID := fun _ => .ok "4242"
    newExporter := fun _ => .error { causes := ["stackdriver: no credentials"] } }

/-- The registration helpers registering one gRPC and one HTTP view. -/
def appDeps : Deps :=
  depsOf [{ name := "grpc.io/server/completed_rpcs", definition := "count" }]
    [{ name := "opencensus.io/http/server/request_count", definition := "count" }]

/-- A process in which a view named like the gRPC view is already registered
with another definition. -/
def conflictWorld : World :=
  { World.fresh with
    views := [{ name := "grpc.io/server/completed_rpcs", definition := "sum" }] }

/-- The error `view.Register` reports for the gRPC view in `conflictWorld`. -/
def conflictErr : Err :=
  { causes := ["grpc.io/server/completed_rpcs: cannot register view \"grpc.io/server/completed_rpcs\"; a different view with the same name is already registered"] }

/-- Formatting of integers standing in for floats in concrete runs. -/
def intFmt : FloatFmt Int :=
  { f1 := fun x => toString x ++ ".0"
    v := fun x => toString x }

/-- A snapshot with one count row carrying one tag. -/
def sampleData : Data Int :=
  { Name := "grpc.io/client/roundtrip_latency"
    End := { hour := 12, minute := 0, second := 5 }
    Rows := [{ Tags := [{ Key := "method", Value := "Get" }], Data := .CountData 3 }] }

/-- A snapshot with one count row carrying no tag. -/
def untaggedData : Data Int :=
  { Name := "grpc.io/client/roundtrip_latency"
    End := { hour := 12, minute := 0, second := 5 }
    Rows := [{ Tags := [], Data := .CountData 3 }] }

/-! ## Paths through `NewCloudExporter` -/

section
variable (sys : Sys) (ctx logger : Nat)

theorem finishCloudExporter_cases (o : Options) (log : List Call) :
    (∃ err, sys.newExporter o = .error err ∧
        finishCloudExporter sys o log = (.error err, log ++ [Call.newExporter o (.error err)])) ∨
    (∃ sd, sys.newExporter o = .ok sd ∧
        finishCloudExporter sys o log = (.ok { sdExporter := sd }, log ++ [Call.newExporter o (.ok sd)])) := by
  unfold finishCloudExporter
  cases h : sys.newExporter o with
  | error err => exact Or.inl ⟨err, rfl, rfl⟩
  | ok sd => exact Or.inr ⟨sd, rfl, rfl⟩

theorem nce_noService (hK : sys.getenv "K_SERVICE" = "") :
    NewCloudExporter sys ctx logger
      = finishCloudExporter sys (baseOptions sys ctx logger) [] := by
  simp [NewCloudExporter, hK]

theorem nce_overrides (hK : sys.getenv "K_SERVICE" ≠ "")
    (hZ : sys.getenv "GCP_COMPUTE_ZONE" ≠ "") (hI : sys.getenv "GCP_INSTANCE_ID" ≠ "") :
    NewCloudExporter sys ctx logger
      = finishCloudExporter sys
          (attachResource sys (baseOptions sys ctx logger)
            (sys.getenv "GCP_COMPUTE_ZONE") (sys.getenv "GCP_INSTANCE_ID")) [] := by
  simp [NewCloudExporter, hK, hZ, hI]

theorem nce_zoneFail (hK : sys.getenv "K_SERVICE" ≠ "")
    (hZ : sys.getenv "GCP_COMPUTE_ZONE" = "") (e : Err) (h0 : sys.zone 0 = .error e) :
    NewCloudExporter sys ctx logger = (.error e, [Call.metadataZone (.error e)]) := by
  simp [NewCloudExporter, hK, hZ, metadataZone, h0]

theorem nce_zoneLookup (hK : sys.getenv "K_SERVICE" ≠ "")
    (hZ : sys.getenv "GCP_COMPUTE_ZONE" = "") (z : String) (h0 : sys.zone 0 = .ok z)
    (hI : sys.getenv "GCP_INSTANCE_ID" ≠ "") :
    NewCloudExporter sys ctx logger
      = finishCloudExporter sys
          (attachResource sys (baseOptions sys ctx logger) z (sys.getenv "GCP_INSTANCE_ID"))
          [Call.metadataZone (.ok z)] := by
  simp [NewCloudExporter, hK, hZ, hI, metadataZone, h0]

theorem nce_instFail (hK : sys.getenv "K_SERVICE" ≠ "")
    (hZ : sys.getenv "GCP_COMPUTE_ZONE" ≠ "") (hI : sys.getenv "GCP_INSTANCE_ID" = "")
    (e : Err) (h0 : sys.zone 0 = .error e) :
    NewCloudExporter sys ctx logger = (.error e, [Call.metadataZone (.error e)]) := by
  simp [NewCloudExporter, hK, hZ, hI, metadataZone, h0]

theorem nce_instLookup (hK : sys.getenv "K_SERVICE" ≠ "")
    (hZ : sys.getenv "GCP_COMPUTE_ZONE" ≠ "") (hI : sys.getenv "GCP_INSTANCE_ID" = "")
    (v : String) (h0 : sys.zone 0 = .ok v) :
    NewCloudExporter sys ctx logger
      = finishCloudExporter sys
          (attachResource sys (baseOptions sys ctx logger) (sys.getenv "GCP_COMPUTE_ZONE") v)
          [Call.metadataZone (.ok v)] := by
  simp [NewCloudExporter, hK, hZ, hI, metadataZone, h0]

theorem nce_secondFail (hK : sys.getenv "K_SERVICE" ≠ "")
    (hZ : sys.getenv "GCP_COMPUTE_ZONE" = "") (z : String) (h0 : sys.zone 0 = .ok z)
    (hI : sys.getenv "GCP_INSTANCE_ID" = "") (e : Err) (h1 : sys.zone 1 = .error e) :
    NewCloudExporter sys ctx logger
      = (.error e, [Call.metadataZone (.ok z), Call.metadataZone (.error e)]) := by
  simp [NewCloudExporter, hK, hZ, hI, metadataZone, h0, h1, Call.isZone]

theorem nce_bothLookups (hK : sys.getenv "K_SERVICE" ≠ "")
    (hZ : sys.getenv "GCP_COMPUTE_ZONE" = "") (z : String) (h0 : sys.zone 0 = .ok z)
    (hI : sys.getenv "GCP_INSTANCE_ID" = "") (v : String) (h1 : sys.zone 1 = .ok v) :
    NewCloudExporter sys ctx logger
      = finishCloudExporter sys (attachResource sys (baseOptions sys ctx logger) z v)
          [Call.metadataZone (.ok z), Call.metadataZone (.ok v)] := by
  simp [NewCloudExporter, hK, hZ, hI, metadataZone, h0, h1, Call.isZone]

end

/-! ## Claims on `NewCloudExporter` -/

theorem finishCloudExporter_spec (sys : Sys) (o : Options) (log : List Call) :
    (finishCloudExporter sys o log).2 = log ++ [Call.newExporter o (sys.newExporter o)] ∧
    (∀ sd, sys.newExporter o = .ok sd →
      (finishCloudExporter sys o log).1 = .ok { sdExporter := sd }) ∧
    (∀ e, sys.newExporter o = .error e → (finishCloudExporter sys o log).1 = .error e) := by
  rcases finishCloudExporter_cases sys o log with ⟨err, h, hf⟩ | ⟨sd, h, hf⟩ <;>
    rw [hf, h] <;> simp

theorem metadataLookupFails_unique (sys : Sys) (e1 e2 : Err)
    (h1 : metadataLookupFails sys e1) (h2 : metadataLookupFails sys e2) : e1 = e2 := by
  obtain ⟨_, h1⟩ := h1
  obtain ⟨_, h2⟩ := h2
  rcases h1 with ⟨a1, b1⟩ | ⟨a1, _, b1⟩ | ⟨a1, _, ⟨z1, c1⟩, b1⟩ <;>
    rcases h2 with ⟨a2, b2⟩ | ⟨a2, _, b2⟩ | ⟨a2, _, ⟨z2, c2⟩, b2⟩ <;>
    simp_all

theorem nce_classify (sys : Sys) (ctx logger : Nat) :
    (∃ e log, metadataLookupFails sys e ∧
        NewCloudExporter sys ctx logger = (.error e, log) ∧
        (∀ o r, Call.newExporter o r ∉ log) ∧
        log.getLast? = some (Call.metadataZone (.error e))) ∨
    ((∀ e, ¬ metadataLookupFails sys e) ∧
      ∃ o lookups,
        (NewCloudExporter sys ctx logger).2
          = lookups ++ [Call.newExporter o (sys.newExporter o)] ∧
        (∀ c ∈ lookups, ∃ v, c = Call.metadataZone (.ok v)) ∧
        lookups.length =
          (if sys.getenv "K_SERVICE" = "" then 0
           else (if sys.getenv "GCP_COMPUTE_ZONE" = "" then 1 else 0) +
                (if sys.getenv "GCP_INSTANCE_ID" = "" then 1 else 0)) ∧
        (∀ sd, sys.newExporter o = .ok sd →
          (NewCloudExporter sys ctx logger).1 = .ok { sdExporter := sd }) ∧
        (∀ e, sys.newExporter o = .error e →
          (NewCloudExporter sys ctx logger).1 = .error e)) := by
  by_cases hK : sys.getenv "K_SERVICE" = ""
  · right
    refine ⟨fun e h => h.1 hK, baseOptions sys ctx logger, [], ?_⟩
    rw [nce_noService sys ctx logger hK]
    obtain ⟨f1, f2, f3⟩ := finishCloudExporter_spec sys (baseOptions sys ctx logger) []
    exact ⟨f1, by simp, by simp [hK], f2, f3⟩
  · by_cases hZ : sys.getenv "GCP_COMPUTE_ZONE" = ""
    · cases h0 : sys.zone 0 with
      | error e =>
        left
        exact ⟨e, _, ⟨hK, Or.inl ⟨hZ, h0⟩⟩, nce_zoneFail sys ctx logger hK hZ e h0,
          by simp, by simp⟩
      | ok z =>
        by_cases hI : sys.getenv "GCP_INSTANCE_ID" = ""
        · cases h1 : sys.zone 1 with
          | error e =>
            left
            exact ⟨e, _, ⟨hK, Or.inr (Or.inr ⟨hZ, hI, ⟨z, h0⟩, h1⟩)⟩,
              nce_secondFail sys ctx logger hK hZ z h0 hI e h1, by simp, by simp⟩
          | ok v =>
            right
            refine ⟨?_, attachResource sys (baseOptions sys ctx logger) z v,
              [Call.metadataZone (.ok z), Call.metadataZone (.ok v)], ?_⟩
            · intro e h
              rcases h.2 with ⟨_, b⟩ | ⟨a, _⟩ | ⟨_, _, _, b⟩
              · rw [h0] at b; simp at b
              · exact a hZ
              · rw [h1] at b; simp at b
            · rw [nce_bothLookups sys ctx logger hK hZ z h0 hI v h1]
              obtain ⟨f1, f2, f3⟩ := finishCloudExporter_spec sys
                (attachResource sys (baseOptions sys ctx logger) z v)
                [Call.metadataZone (.ok z), Call.metadataZone (.ok v)]
              exact ⟨f1, by simp, by simp [hK, hZ, hI], f2, f3⟩
        · right
          refine ⟨?_, attachResource sys (baseOptions sys ctx logger) z
              (sys.getenv "GCP_INSTANCE_ID"), [Call.metadataZone (.ok z)], ?_⟩
          · intro e h
            rcases h.2 with ⟨_, b⟩ | ⟨a, _⟩ | ⟨_, a, _⟩
            · rw [h0] at b; simp at b
            · exact a hZ
            · exact hI a
          · rw [nce_zoneLookup sys ctx logger hK hZ z h0 hI]
            obtain ⟨f1, f2, f3⟩ := finishCloudExporter_spec sys
              (attachResource sys (baseOptions sys ctx logger) z
                (sys.getenv "GCP_INSTANCE_ID"))
              [Call.metadataZone (.ok z)]
            exact ⟨f1, by simp, by simp [hK, hZ, hI], f2, f3⟩
    · by_cases hI : sys.getenv "GCP_INSTANCE_ID" = ""
      · cases h0 : sys.zone 0 with
        | error e =>
          left
          exact ⟨e, _, ⟨hK, Or.inr (Or.inl ⟨hZ, hI, h0⟩)⟩,
            nce_instFail sys ctx logger hK hZ hI e h0, by simp, by simp⟩
        | ok v =>
          right
          refine ⟨?_, attachResource sys (baseOptions sys ctx logger)
              (sys.getenv "GCP_COMPUTE_ZONE") v, [Call.metadataZone (.ok v)], ?_⟩
          · intro e h
            rcases h.2 with ⟨a, _⟩ | ⟨_, _, b⟩ | ⟨a, _⟩
            · exact hZ a
            · rw [h0] at b; simp at b
            · exact hZ a
          · rw [nce_instLookup sys ctx logger hK hZ hI v h0]
            obtain ⟨f1, f2, f3⟩ := finishCloudExporter_spec sys
              (attachResource sys (baseOptions sys ctx logger)
                (sys.getenv "GCP_COMPUTE_ZONE") v)
              [Call.metadataZone (.ok v)]
            exact ⟨f1, by simp, by simp [hK, hZ, hI], f2, f3⟩
      · right
        refine ⟨?_, attachResource sys (baseOptions sys ctx logger)
            (sys.getenv "GCP_COMPUTE_ZONE") (sys.getenv "GCP_INSTANCE_ID"), [], ?_⟩
        · intro e h
          rcases h.2 with ⟨a, _⟩ | ⟨_, a, _⟩ | ⟨a, _⟩
          · exact hZ a
          · exact hI a
          · exact hZ a
        · rw [nce_overrides sys ctx logger hK hZ hI]
          obtain ⟨f1, f2, f3⟩ := finishCloudExporter_spec sys
            (attachResource sys (baseOptions sys ctx logger)
              (sys.getenv "GCP_COMPUTE_ZONE") (sys.getenv "GCP_INSTANCE_ID")) []
          exact ⟨f1, by simp, by simp [hK, hZ, hI], f2, f3⟩

/-- C3. `NewCloudExporter` returns an error exactly when (a) `K_SERVICE` is
set, an override is empty and the metadata lookup made for it fails, or (b)
no such lookup fails and `stackdriver.NewExporter`, which is then the last
call made, fails on the options it is given. In case (a) the error returned
is the lookup's and `stackdriver.NewExporter` is never called. When no lookup
fails, the calls made are one successful lookup per empty override (none when
`K_SERVICE` is empty) followed by exactly one call of `stackdriver.NewExporter`,
whose error is returned if it fails and whose client is wrapped and returned
if it succeeds. -/
theorem NewCloudExporter_error_iff (sys : Sys) (ctx logger : Nat) :
    (∀ e, metadataLookupFails sys e →
      (NewCloudExporter sys ctx logger).1 = .error e ∧
      (∀ o r, Call.newExporter o r ∉ (NewCloudExporter sys ctx logger).2) ∧
      (NewCloudExporter sys ctx logger).2.getLast? = some (Call.metadataZone (.error e))) ∧
    ((∀ e, ¬ metadataLookupFails sys e) →
      ∃ o lookups,
        (NewCloudExporter sys ctx logger).2
          = lookups ++ [Call.newExporter o (sys.newExporter o)] ∧
        (∀ c ∈ lookups, ∃ v, c = Call.metadataZone (.ok v)) ∧
        lookups.length =
          (if sys.getenv "K_SERVICE" = "" then 0
           else (if sys.getenv "GCP_COMPUTE_ZONE" = "" then 1 else 0) +
                (if sys.getenv "GCP_INSTANCE_ID" = "" then 1 else 0)) ∧
        (∀ sd, sys.newExporter o = .ok sd →
          (NewCloudExporter sys ctx logger).1 = .ok { sdExporter := sd }) ∧
        (∀ e, sys.newExporter o = .error e →
          (NewCloudExporter sys ctx logger).1 = .error e)) ∧
    ((∃ err, (NewCloudExporter sys ctx logger).1 = .error err) ↔
      ((∃ e, metadataLookupFails sys e) ∨
        ((∀ e, ¬ metadataLookupFails sys e) ∧
          ∃ o e, (NewCloudExporter sys ctx logger).2.getLast?
                = some (Call.newExporter o (.error e)) ∧
            sys.newExporter o = .error e))) ∧
    ((∀ e, ¬ metadataLookupFails sys e) →
      (∀ o e, (NewCloudExporter sys ctx logger).2.getLast?
          = some (Call.newExporter o (sys.newExporter o)) →
        sys.newExporter o ≠ .error e) →
      ∃ x, (NewCloudExporter sys ctx logger).1 = .ok x) := by
  rcases nce_classify sys ctx logger with
    ⟨e0, log, hf, hn, hno, hlast⟩ | ⟨hnf, o, lookups, hlog, hall, hlen, hok, herr⟩
  · refine ⟨?_, ?_, ?_, ?_⟩
    · intro e he
      have := metadataLookupFails_unique sys e e0 he hf
      subst this
      rw [hn]
      exact ⟨rfl, hno, hlast⟩
    · intro h
      exact absurd hf (h e0)
    · constructor
      · intro _
        exact Or.inl ⟨e0, hf⟩
      · intro _
        exact ⟨e0, by rw [hn]⟩
    · intro h
      exact absurd hf (h e0)
  · have hl : (NewCloudExporter sys ctx logger).2.getLast?
        = some (Call.newExporter o (sys.newExporter o)) := by
      rw [hlog]; simp
    refine ⟨?_, ?_, ?_, ?_⟩
    · intro e he
      exact absurd he (hnf e)
    · intro _
      exact ⟨o, lookups, hlog, hall, hlen, hok, herr⟩
    · constructor
      · rintro ⟨err, he⟩
        right
        refine ⟨hnf, o, err, ?_, ?_⟩
        · cases hr : sys.newExporter o with
          | ok sd => rw [hok sd hr] at he; simp at he
          | error e =>
            rw [herr e hr] at he
            simp only [Res.error.injEq] at he
            subst he
            rw [hl, hr]
        · cases hr : sys.newExporter o with
          | ok sd => rw [hok sd hr] at he; simp at he
          | error e =>
            rw [herr e hr] at he
            simp only [Res.error.injEq] at he
            subst he
            rfl
      · rintro (⟨e, he⟩ | ⟨_, o1, e, h1, h2⟩)
        · exact absurd he (hnf e)
        · rw [hl] at h1
          simp only [Option.some.injEq, Call.newExporter.injEq] at h1
          obtain ⟨ho, hr⟩ := h1
          exact ⟨e, herr e hr⟩
    · intro _ h
      cases hr : sys.newExporter o with
      | ok sd => exact ⟨_, hok sd hr⟩
      | error e => exact absurd hr (h o e hl)

/-- C4. With `K_SERVICE` and both overrides set, the only external call is
`stackdriver.NewExporter` (no metadata lookup); the options it receives carry
the two overrides as the `location` and `instance_id` labels; and they are the
same options whatever the metadata service would answer. -/
theorem NewCloudExporter_overrides_verbatim (sys : Sys) (ctx logger : Nat)
    (hK : sys.getenv "K_SERVICE" ≠ "")
    (hZ : sys.getenv "GCP_COMPUTE_ZONE" ≠ "") (hI : sys.getenv "GCP_INSTANCE_ID" ≠ "") :
    ∃ o r,
      (NewCloudExporter sys ctx logger).2 = [Call.newExporter o (sys.newExporter o)] ∧
      (NewCloudExporter sys ctx logger).2.countP Call.isMetadata = 0 ∧
      o.monitoredResource = some r ∧
      r.location = sys.getenv "GCP_COMPUTE_ZONE" ∧
      r.instanceID = sys.getenv "GCP_INSTANCE_ID" ∧
      labelOf r.MonitoredResource.2 "location" = some (sys.getenv "GCP_COMPUTE_ZONE") ∧
      labelOf r.MonitoredResource.2 "instance_id" = some (sys.getenv "GCP_INSTANCE_ID") ∧
      ∀ (zone instanceID : Nat → Res String),
        passedOptions
          (NewCloudExporter { sys with zone := zone, instanceID := instanceID } ctx logger).2
          = some o := by
  refine ⟨attachResource sys (baseOptions sys ctx logger)
      (sys.getenv "GCP_COMPUTE_ZONE") (sys.getenv "GCP_INSTANCE_ID"),
    { projectID := sys.getenv envVarStackDriverProjectID
      module := sys.getenv "K_SERVICE"
      version := sys.getenv "K_REVISION"
      instanceID := sys.getenv "GCP_INSTANCE_ID"
      location := sys.getenv "GCP_COMPUTE_ZONE" }, ?_, ?_, rfl, rfl, rfl, ?_, ?_, ?_⟩
  · rw [nce_overrides sys ctx logger hK hZ hI]
    rcases finishCloudExporter_cases sys
        (attachResource sys (baseOptions sys ctx logger)
          (sys.getenv "GCP_COMPUTE_ZONE") (sys.getenv "GCP_INSTANCE_ID")) [] with
      ⟨err, h, hf⟩ | ⟨sd, h, hf⟩ <;> rw [hf, h] <;> simp
  · rw [nce_overrides sys ctx logger hK hZ hI]
    rcases finishCloudExporter_cases sys
        (attachResource sys (baseOptions sys ctx logger)
          (sys.getenv "GCP_COMPUTE_ZONE") (sys.getenv "GCP_INSTANCE_ID")) [] with
      ⟨err, h, hf⟩ | ⟨sd, h, hf⟩ <;> rw [hf] <;> simp [Call.isMetadata]
  · simp [labelOf, gaeResource.MonitoredResource, List.find?]
  · simp [labelOf, gaeResource.MonitoredResource, List.find?]
  · intro zone instanceID
    rw [nce_overrides { sys with zone := zone, instanceID := instanceID } ctx logger hK hZ hI]
    rcases finishCloudExporter_cases { sys with zone := zone, instanceID := instanceID }
        (attachResource { sys with zone := zone, instanceID := instanceID }
          (baseOptions { sys with zone := zone, instanceID := instanceID } ctx logger)
          (sys.getenv "GCP_COMPUTE_ZONE") (sys.getenv "GCP_INSTANCE_ID")) [] with
      ⟨err, h, hf⟩ | ⟨sd, h, hf⟩ <;> rw [hf] <;>
      simp [passedOptions, attachResource, baseOptions]

/-- Witness of C3. With the metadata service down: no overrides, then the zone
lookup's error is returned; zone override set and instance-id override empty,
then the lookup for the instance id fails and its error is returned; in both
the constructor is never called. With both overrides set and a Stackdriver
client that cannot be built, the constructor's error is returned. -/
theorem NewCloudExporter_error_iff_witness :
    ((NewCloudExporter zoneDownSys 0 0).1 = .error { causes := ["metadata: unreachable"] } ∧
      (∀ o r, Call.newExporter o r ∉ (NewCloudExporter zoneDownSys 0 0).2) ∧
      (NewCloudExporter zoneDownSys 0 0).2.getLast?
        = some (Call.metadataZone (.error { causes := ["metadata: unreachable"] }))) ∧
    ((NewCloudExporter instanceDownSys 0 0).1
        = .error { causes := ["metadata: unreachable"] } ∧
      (∀ o r, Call.newExporter o r ∉ (NewCloudExporter instanceDownSys 0 0).2) ∧
      (NewCloudExporter instanceDownSys 0 0).2.getLast?
        = some (Call.metadataZone (.error { causes := ["metadata: unreachable"] }))) ∧
    (∃ err, (NewCloudExporter clientDownSys 0 0).1 = .error err) :=
  ⟨(NewCloudExporter_error_iff zoneDownSys 0 0).1 { causes := ["metadata: unreachable"] }
      ⟨by decide, Or.inl ⟨by decide, by decide⟩⟩,
   (NewCloudExporter_error_iff instanceDownSys 0 0).1 { causes := ["metadata: unreachable"] }
      ⟨by decide, Or.inr (Or.inl ⟨by decide, by decide, by decide⟩)⟩,
   (NewCloudExporter_error_iff clientDownSys 0 0).2.2.1.mpr
      (Or.inr ⟨fun e h => by
          rcases h.2 with ⟨a, _⟩ | ⟨_, a, _⟩ | ⟨a, _⟩
          · exact absurd a (by decide)
          · exact absurd a (by decide)
          · exact absurd a (by decide),
        attachResource clientDownSys (baseOptions clientDownSys 0 0) "local-zone" "local-1", { causes := ["stackdriver: no credentials"] },
        by decide, by decide⟩)⟩

/-- Witness of C4 on a host with both overrides set. -/
theorem NewCloudExporter_overrides_verbatim_witness :
    ∃ o r,
      (NewCloudExporter overrideSys 0 0).2 = [Call.newExporter o (overrideSys.newExporter o)] ∧
      (NewCloudExporter overrideSys 0 0).2.countP Call.isMetadata = 0 ∧
      o.monitoredResource = some r ∧
      r.location = overrideSys.getenv "GCP_COMPUTE_ZONE" ∧
      r.instanceID = overrideSys.getenv "GCP_INSTANCE_ID" ∧
      labelOf r.MonitoredResource.2 "location" = some (overrideSys.getenv "GCP_COMPUTE_ZONE") ∧
      labelOf r.MonitoredResource.2 "instance_id"
        = some (overrideSys.getenv "GCP_INSTANCE_ID") ∧
      ∀ (zone instanceID : Nat → Res String),
        passedOptions
          (NewCloudExporter { overrideSys with zone := zone, instanceID := instanceID } 0 0).2
          = some o :=
  NewCloudExporter_overrides_verbatim overrideSys 0 0 (by decide) (by decide) (by decide)

/-- C5. With `K_SERVICE` empty the only external call is
`stackdriver.NewExporter`, and the options it receives have neither a monitored
resource nor default monitoring labels, whatever the other variables hold;
with `K_SERVICE` set, a successful construction has passed options that carry
a monitored resource. -/
theorem NewCloudExporter_resource_iff_service (sys : Sys) (ctx logger : Nat) :
    (sys.getenv "K_SERVICE" = "" →
      ∃ o, (NewCloudExporter sys ctx logger).2 = [Call.newExporter o (sys.newExporter o)] ∧
        (NewCloudExporter sys ctx logger).2.countP Call.isMetadata = 0 ∧
        o.monitoredResource = none ∧ o.defaultMonitoringLabels = none) ∧
    (sys.getenv "K_SERVICE" ≠ "" →
      ∀ x, (NewCloudExporter sys ctx logger).1 = .ok x →
        ∃ o r, passedOptions (NewCloudExporter sys ctx logger).2 = some o ∧
          o.monitoredResource = some r) := by
  constructor
  · intro hK
    refine ⟨baseOptions sys ctx logger, ?_, ?_, ?_, ?_⟩
    · rw [nce_noService sys ctx logger hK]
      rcases finishCloudExporter_cases sys (baseOptions sys ctx logger) [] with
        ⟨err, h, hf⟩ | ⟨sd, h, hf⟩ <;> rw [hf, h] <;> simp
    · rw [nce_noService sys ctx logger hK]
      rcases finishCloudExporter_cases sys (baseOptions sys ctx logger) [] with
        ⟨err, h, hf⟩ | ⟨sd, h, hf⟩ <;> rw [hf] <;> simp [Call.isMetadata]
    · unfold baseOptions; split_ifs <;> rfl
    · unfold baseOptions; split_ifs <;> rfl
  · intro hK x hx
    by_cases hZ : sys.getenv "GCP_COMPUTE_ZONE" = ""
    · cases h0 : sys.zone 0 with
      | error e =>
        rw [nce_zoneFail sys ctx logger hK hZ e h0] at hx
        simp at hx
      | ok z =>
        by_cases hI : sys.getenv "GCP_INSTANCE_ID" = ""
        · cases h1 : sys.zone 1 with
          | error e =>
            rw [nce_secondFail sys ctx logger hK hZ z h0 hI e h1] at hx
            simp at hx
          | ok v =>
            rw [nce_bothLookups sys ctx logger hK hZ z h0 hI v h1]
            rcases finishCloudExporter_cases sys
                (attachResource sys (baseOptions sys ctx logger) z v)
                [Call.metadataZone (.ok z), Call.metadataZone (.ok v)] with
              ⟨err, h, hf⟩ | ⟨sd, h, hf⟩ <;> rw [hf] <;>
              simp [passedOptions, attachResource]
        · rw [nce_zoneLookup sys ctx logger hK hZ z h0 hI]
          rcases finishCloudExporter_cases sys
              (attachResource sys (baseOptions sys ctx logger) z (sys.getenv "GCP_INSTANCE_ID"))
              [Call.metadataZone (.ok z)] with
            ⟨err, h, hf⟩ | ⟨sd, h, hf⟩ <;> rw [hf] <;>
            simp [passedOptions, attachResource]
    · by_cases hI : sys.getenv "GCP_INSTANCE_ID" = ""
      · cases h0 : sys.zone 0 with
        | error e =>
          rw [nce_instFail sys ctx logger hK hZ hI e h0] at hx
          simp at hx
        | ok v =>
          rw [nce_instLookup sys ctx logger hK hZ hI v h0]
          rcases finishCloudExporter_cases sys
              (attachResource sys (baseOptions sys ctx logger) (sys.getenv "GCP_COMPUTE_ZONE") v)
              [Call.metadataZone (.ok v)] with
            ⟨err, h, hf⟩ | ⟨sd, h, hf⟩ <;> rw [hf] <;>
            simp [passedOptions, attachResource]
      · rw [nce_overrides sys ctx logger hK hZ hI]
        rcases finishCloudExporter_cases sys
            (attachResource sys (baseOptions sys ctx logger)
              (sys.getenv "GCP_COMPUTE_ZONE") (sys.getenv "GCP_INSTANCE_ID")) [] with
          ⟨err, h, hf⟩ | ⟨sd, h, hf⟩ <;> rw [hf] <;>
          simp [passedOptions, attachResource]

/-- Witness of C5: a host without `K_SERVICE` (every other variable set), and
a Cloud Run host on which construction succeeds. -/
theorem NewCloudExporter_resource_iff_service_witness :
    (∃ o, (NewCloudExporter plainSys 0 0).2 = [Call.newExporter o (plainSys.newExporter o)] ∧
        (NewCloudExporter plainSys 0 0).2.countP Call.isMetadata = 0 ∧
        o.monitoredResource = none ∧ o.defaultMonitoringLabels = none) ∧
    (∃ o r, passedOptions (NewCloudExporter cloudRunSys 0 0).2 = some o ∧
        o.monitoredResource = some r) :=
  ⟨(NewCloudExporter_resource_iff_service plainSys 0 0).1 (by decide),
   (NewCloudExporter_resource_iff_service cloudRunSys 0 0).2 (by decide)
     { sdExporter := 7 } (by decide)⟩

/-- C7, the code at a failing input. On a Cloud Run host with the project set
and no overrides, where the metadata service knows the zone `us-central1-a`
and the instance id `4242`, construction succeeds and the resource passed on
has the type `gae_instance` and the five labels, with `project_id`, `module_id`,
`version_id` and `location` as claimed and `project_id` equal to the project
of the options; but `instance_id` holds the zone, not the instance id the
service knows. -/
theorem NewCloudExporter_labels_at_fallback :
    cloudRunProjSys.getenv "K_SERVICE" = "svc" ∧
    cloudRunProjSys.getenv "GCP_COMPUTE_ZONE" = "" ∧
    cloudRunProjSys.getenv "GCP_INSTANCE_ID" = "" ∧
    cloudRunProjSys.zone 0 = .ok "us-central1-a" ∧
    cloudRunProjSys.instanceID 0 = .ok "4242" ∧
    (NewCloudExporter cloudRunProjSys 0 0).1 = .ok { sdExporter := 7 } ∧
    ((passedOptions (NewCloudExporter cloudRunProjSys 0 0).2).bind
        Options.monitoredResource).map gaeResource.MonitoredResource
      = some ("gae_instance",
          [ ("project_id", "proj"),
            ("module_id", "svc"),
            ("version_id", "svc-00001"),
            ("instance_id", "us-central1-a"),
            ("location", "us-central1-a") ]) ∧
    (passedOptions (NewCloudExporter cloudRunProjSys 0 0).2).map Options.projectID
      = some "proj" ∧
    ((passedOptions (NewCloudExporter cloudRunProjSys 0 0).2).bind
        Options.monitoredResource).map gaeResource.instanceID
      ≠ some "4242" := by
  decide

/-- C2, the code at a failing input. On a Cloud Run host with no overrides,
where the metadata service knows the zone `us-central1-a` and the instance id
`4242`, the constructor asks the service for the zone twice and never for the
instance id, and the `instance_id` label it passes on is the zone. -/
theorem NewCloudExporter_instance_id_is_zone :
    cloudRunSys.getenv "K_SERVICE" ≠ "" ∧
    cloudRunSys.getenv "GCP_INSTANCE_ID" = "" ∧
    cloudRunSys.instanceID 0 = .ok "4242" ∧
    (NewCloudExporter cloudRunSys 0 0).1 = .ok { sdExporter := 7 } ∧
    (NewCloudExporter cloudRunSys 0 0).2.map Call.isZone = [true, true, false] ∧
    ((passedOptions (NewCloudExporter cloudRunSys 0 0).2).bind Options.monitoredResource).map
        (fun r => (labelOf r.MonitoredResource.2 "instance_id",
                   labelOf r.MonitoredResource.2 "location"))
      = some (some "us-central1-a", some "us-central1-a") := by
  decide

/-! ## Claims on the lifecycle -/

theorem registerApplicationViews_snd (d : Deps) (w : World) :
    (registerApplicationViews d w).2
      = { w with views := (d.registerHTTPViews (d.registerGrpcViews w.views).2).2 } :=
  rfl

theorem printExporter_Start_ok (d : Deps) (e : printExporter) (w : World)
    (h : (registerApplicationViews d w).1 = none) :
    printExporter.Start d e w
      = (none, traceApplyConfig (some Sampler.AlwaysSample)
          (traceRegisterExporter e.trace
            (viewRegisterExporter e.metric (registerApplicationViews d w).2))) := by
  unfold printExporter.Start
  generalize registerApplicationViews d w = p at h ⊢
  rcases p with ⟨r, w1⟩
  cases r with
  | none => rfl
  | some err => simp at h

theorem printExporter_Start_err (d : Deps) (e : printExporter) (w : World) (err : Err)
    (h : (registerApplicationViews d w).1 = some err) :
    printExporter.Start d e w = (some err, (registerApplicationViews d w).2) := by
  unfold printExporter.Start
  generalize registerApplicationViews d w = p at h ⊢
  rcases p with ⟨r, w1⟩
  cases r with
  | none => simp at h
  | some err1 =>
    simp only [Option.some.injEq] at h
    subst h
    rfl

theorem sdExporter_Start_err (d : Deps) (e : sdExporter) (w : World) (err : Err)
    (h : (registerApplicationViews d w).1 = some err) :
    sdExporter.Start d e w = (some err, (registerApplicationViews d w).2) := by
  unfold sdExporter.Start
  generalize registerApplicationViews d w = p at h ⊢
  rcases p with ⟨r, w1⟩
  cases r with
  | none => simp at h
  | some err1 =>
    simp only [Option.some.injEq] at h
    subst h
    rfl

theorem sdExporter_Start_ok (d : Deps) (e : sdExporter) (w : World)
    (h : (sdExporter.Start d e w).1 = none) :
    (registerApplicationViews d w).1 = none ∧
    d.startMetricsExporter e.sdExporter = none ∧
    sdExporter.Start d e w
      = (none, traceApplyConfig (some Sampler.AlwaysSample)
          (traceRegisterExporter e.sdExporter
            { (registerApplicationViews d w).2 with
              metricsExporting :=
                insert e.sdExporter (registerApplicationViews d w).2.metricsExporting })) := by
  unfold sdExporter.Start at h ⊢
  generalize registerApplicationViews d w = p at h ⊢
  rcases p with ⟨r, w1⟩
  cases r with
  | some err => simp at h
  | none =>
    simp only [StartMetricsExporter] at h ⊢
    cases hs : d.startMetricsExporter e.sdExporter with
    | some err => simp [hs] at h
    | none => simp

/-- C1, counterexample. In a fresh process `Start` succeeds for both
exporters, and after `Start` then `Stop` the view registry holds the two
application views, which it did not hold before. -/
theorem start_stop_leaves_views :
    (printExporter.Start appDeps ⟨1, 2⟩ World.fresh).1 = none ∧
    (printExporter.Stop ⟨1, 2⟩ (printExporter.Start appDeps ⟨1, 2⟩ World.fresh).2).views
      = [{ name := "grpc.io/server/completed_rpcs", definition := "count" },
         { name := "opencensus.io/http/server/request_count", definition := "count" }] ∧
    (printExporter.Stop ⟨1, 2⟩ (printExporter.Start appDeps ⟨1, 2⟩ World.fresh).2).views
      ≠ World.fresh.views ∧
    (sdExporter.Start appDeps ⟨7⟩ World.fresh).1 = none ∧
    (sdExporter.Stop appDeps ⟨7⟩ (sdExporter.Start appDeps ⟨7⟩ World.fresh).2).views
      ≠ World.fresh.views := by
  decide

/-- C1, amended. When `Start` succeeds, after `Start` then `Stop` the
view-exporter and trace-exporter registries are their state before `Start`
with this exporter removed, hence equal to it when the exporter was not
registered before; the view registry is what `registerApplicationViews` left
(`Stop` unregisters no view) and the default sampler is `AlwaysSample`. The
cloud exporter does not touch the view-exporter registry at all. -/
theorem start_stop_registries (d : Deps) (w : World) (pe : printExporter) (se : sdExporter) :
    ((printExporter.Start d pe w).1 = none →
      (printExporter.Stop pe (printExporter.Start d pe w).2).viewExporters
        = w.viewExporters.erase pe.metric ∧
      (printExporter.Stop pe (printExporter.Start d pe w).2).traceExporters
        = w.traceExporters.erase pe.trace ∧
      (pe.metric ∉ w.viewExporters →
        (printExporter.Stop pe (printExporter.Start d pe w).2).viewExporters
          = w.viewExporters) ∧
      (pe.trace ∉ w.traceExporters →
        (printExporter.Stop pe (printExporter.Start d pe w).2).traceExporters
          = w.traceExporters) ∧
      (printExporter.Stop pe (printExporter.Start d pe w).2).views
        = (registerApplicationViews d w).2.views ∧
      (printExporter.Stop pe (printExporter.Start d pe w).2).defaultSampler
        = Sampler.AlwaysSample) ∧
    ((sdExporter.Start d se w).1 = none →
      (sdExporter.Stop d se (sdExporter.Start d se w).2).viewExporters = w.viewExporters ∧
      (sdExporter.Stop d se (sdExporter.Start d se w).2).traceExporters
        = w.traceExporters.erase se.sdExporter ∧
      (se.sdExporter ∉ w.traceExporters →
        (sdExporter.Stop d se (sdExporter.Start d se w).2).traceExporters
          = w.traceExporters) ∧
      (sdExporter.Stop d se (sdExporter.Start d se w).2).views
        = (registerApplicationViews d w).2.views ∧
      (sdExporter.Stop d se (sdExporter.Start d se w).2).defaultSampler
        = Sampler.AlwaysSample) := by
  constructor
  · intro h
    have hr : (registerApplicationViews d w).1 = none := by
      cases hr : (registerApplicationViews d w).1 with
      | none => rfl
      | some err => rw [printExporter_Start_err d pe w err hr] at h; simp at h
    rw [printExporter_Start_ok d pe w hr]
    simp only [printExporter.Stop, viewUnregisterExporter, traceUnregisterExporter,
      traceApplyConfig, traceRegisterExporter, viewRegisterExporter,
      registerApplicationViews_snd, Finset.erase_insert_eq_erase]
    refine ⟨trivial, trivial, ?_, ?_, trivial, trivial⟩
    · intro hm; exact Finset.erase_eq_of_not_mem hm
    · intro hm; exact Finset.erase_eq_of_not_mem hm
  · intro h
    obtain ⟨_, _, hs⟩ := sdExporter_Start_ok d se w h
    rw [hs]
    have stop_fields : ∀ w0 : World,
        (sdExporter.Stop d se w0).viewExporters = w0.viewExporters ∧
        (sdExporter.Stop d se w0).traceExporters = w0.traceExporters.erase se.sdExporter ∧
        (sdExporter.Stop d se w0).views = w0.views ∧
        (sdExporter.Stop d se w0).defaultSampler = w0.defaultSampler := by
      intro w0
      unfold sdExporter.Stop TryClose
      cases d.tryClose se.sdExporter <;>
        simp [StopMetricsExporter, traceUnregisterExporter, Flush]
    obtain ⟨h1, h2, h3, h4⟩ := stop_fields (traceApplyConfig (some Sampler.AlwaysSample)
      (traceRegisterExporter se.sdExporter
        { (registerApplicationViews d w).2 with
          metricsExporting :=
            insert se.sdExporter (registerApplicationViews d w).2.metricsExporting }))
    rw [h1, h2, h3, h4]
    simp only [traceApplyConfig, traceRegisterExporter, registerApplicationViews_snd,
      Finset.erase_insert_eq_erase]
    refine ⟨trivial, trivial, ?_, trivial, trivial⟩
    intro hm; exact Finset.erase_eq_of_not_mem hm

/-- Witness of C1 (amended) in a fresh process. -/
theorem start_stop_registries_witness :
    (printExporter.Stop ⟨1, 2⟩ (printExporter.Start appDeps ⟨1, 2⟩ World.fresh).2).viewExporters
      = World.fresh.viewExporters ∧
    (sdExporter.Stop appDeps ⟨7⟩ (sdExporter.Start appDeps ⟨7⟩ World.fresh).2).traceExporters
      = World.fresh.traceExporters :=
  ⟨((start_stop_registries appDeps World.fresh ⟨1, 2⟩ ⟨7⟩).1 (by decide)).2.2.1 (by decide),
   ((start_stop_registries appDeps World.fresh ⟨1, 2⟩ ⟨7⟩).2 (by decide)).2.2.1 (by decide)⟩

/-- C6, counterexample. With a conflicting view already registered, view
registration fails and `Start` returns the error, yet the HTTP view has been
added to the view registry, for both exporters. -/
theorem start_failure_changes_views :
    (printExporter.Start appDeps ⟨1, 2⟩ conflictWorld).1 = some conflictErr ∧
    (printExporter.Start appDeps ⟨1, 2⟩ conflictWorld).2.views
      = [{ name := "grpc.io/server/completed_rpcs", definition := "sum" },
         { name := "opencensus.io/http/server/request_count", definition := "count" }] ∧
    (printExporter.Start appDeps ⟨1, 2⟩ conflictWorld).2.views ≠ conflictWorld.views ∧
    (sdExporter.Start appDeps ⟨7⟩ conflictWorld).1 = some conflictErr ∧
    (sdExporter.Start appDeps ⟨7⟩ conflictWorld).2.views ≠ conflictWorld.views := by
  decide

/-- C6, amended. If `registerApplicationViews` fails, `Start` returns that
error and changes nothing but the view registry: the metrics exporter is not
started, no view or trace exporter is registered, the sampler is unchanged;
the view registry is left as the two registration helpers left it. -/
theorem start_view_failure (d : Deps) (w : World) (pe : printExporter) (se : sdExporter)
    (err : Err) (h : (registerApplicationViews d w).1 = some err) :
    printExporter.Start d pe w
      = (some err, { w with views := (d.registerHTTPViews (d.registerGrpcViews w.views).2).2 }) ∧
    sdExporter.Start d se w
      = (some err, { w with views := (d.registerHTTPViews (d.registerGrpcViews w.views).2).2 }) ∧
    (printExporter.Start d pe w).2.viewExporters = w.viewExporters ∧
    (printExporter.Start d pe w).2.traceExporters = w.traceExporters ∧
    (printExporter.Start d pe w).2.defaultSampler = w.defaultSampler ∧
    (printExporter.Start d pe w).2.metricsExporting = w.metricsExporting ∧
    (sdExporter.Start d se w).2.viewExporters = w.viewExporters ∧
    (sdExporter.Start d se w).2.traceExporters = w.traceExporters ∧
    (sdExporter.Start d se w).2.defaultSampler = w.defaultSampler ∧
    (sdExporter.Start d se w).2.metricsExporting = w.metricsExporting := by
  rw [printExporter_Start_err d pe w err h, sdExporter_Start_err d se w err h,
    registerApplicationViews_snd]
  exact ⟨rfl, rfl, rfl, rfl, rfl, rfl, rfl, rfl, rfl, rfl⟩

/-- Witness of C6 (amended) with a conflicting view already registered. -/
theorem start_view_failure_witness :
    (printExporter.Start appDeps ⟨1, 2⟩ conflictWorld).1 = some conflictErr ∧
    (printExporter.Start appDeps ⟨1, 2⟩ conflictWorld).2.viewExporters
      = conflictWorld.viewExporters ∧
    (sdExporter.Start appDeps ⟨7⟩ conflictWorld).2.metricsExporting
      = conflictWorld.metricsExporting := by
  have h := start_view_failure appDeps conflictWorld ⟨1, 2⟩ ⟨7⟩ conflictErr (by decide)
  exact ⟨by rw [h.1], h.2.2.1, h.2.2.2.2.2.2.2.2.2⟩

/-! ## Claims on the console exporter -/

theorem foldl_logWrite (tags : List Tag) (log : List String) :
    tags.foldl (fun log tag => logWrite log (tagMessage tag)) log
      = log ++ tags.map tagMessage := by
  induction tags generalizing log with
  | nil => simp
  | cons t ts ih =>
    simp only [List.foldl_cons, List.map_cons]
    rw [ih]
    simp [logWrite]

theorem exportRow_eq {F : Type} (fmt : FloatFmt F) (vd : Data F) (log : List String)
    (row : Row F) :
    exportRow fmt vd log row
      = log ++ headerMessage vd.End vd.Name :: (info fmt row.Data ++ "\n")
          :: row.Tags.map tagMessage := by
  unfold exportRow
  simp only [foldl_logWrite]
  simp [logWrite]

theorem ExportView_eq {F : Type} (fmt : FloatFmt F) (vd : Data F) (log : List String) :
    ExportView fmt vd log
      = log ++ (vd.Rows.map (fun row =>
          headerMessage vd.End vd.Name :: (info fmt row.Data ++ "\n")
            :: row.Tags.map tagMessage)).flatten := by
  unfold ExportView
  generalize vd.Rows = rows
  induction rows generalizing log with
  | nil => simp
  | cons r rs ih => simp [List.foldl_cons, ih, exportRow_eq]

theorem containsText_mid (a b c : String) : containsText (a ++ b ++ c) b :=
  ⟨a.data, c.data, by simp⟩

theorem containsText_end (a b : String) : containsText (a ++ b) b :=
  ⟨a.data, [], by simp⟩

theorem append_ne_empty (a b : String) (h : a ≠ "") : a ++ b ≠ "" := by
  intro hab
  apply h
  have hd := congrArg String.data hab
  rw [String.data_append] at hd
  have h0 : a.data = [] := (List.append_eq_nil.mp hd).1
  exact String.ext h0

/-- C8. For every row of a snapshot, the summary `ExportView` logs after the
row's header is `info` of the row's data (followed by the newline of
`Println`). For a distribution it is non-empty and contains the formatted min,
max and mean; for a count, a sum and a last value it is non-empty and contains
the formatted value; for any other data it is the empty string. -/
theorem ExportView_summary_text {F : Type} (fmt : FloatFmt F) (vd : Data F)
    (log : List String) :
    (∀ row ∈ vd.Rows,
      (info fmt row.Data ++ "\n") ∈ ExportView fmt vd log ∧
      exportRow fmt vd log row
        = log ++ headerMessage vd.End vd.Name :: (info fmt row.Data ++ "\n")
            :: row.Tags.map tagMessage) ∧
    (∀ mn mx mean : F,
      info fmt (.DistributionData mn mx mean) ≠ "" ∧
      info fmt (.DistributionData mn mx mean)
        = "distribution: min=" ++ fmt.f1 mn ++ " max=" ++ fmt.f1 mx ++ " mean=" ++ fmt.f1 mean ∧
      containsText (info fmt (.DistributionData mn mx mean)) (fmt.f1 mn) ∧
      containsText (info fmt (.DistributionData mn mx mean)) (fmt.f1 mx) ∧
      containsText (info fmt (.DistributionData mn mx mean)) (fmt.f1 mean)) ∧
    (∀ n : Int,
      info fmt (.CountData n) ≠ "" ∧
      containsText (info fmt (.CountData n)) (fmtInt n)) ∧
    (∀ x : F,
      info fmt (.SumData x) ≠ "" ∧ containsText (info fmt (.SumData x)) (fmt.v x)) ∧
    (∀ x : F,
      info fmt (.LastValueData x) ≠ "" ∧
      containsText (info fmt (.LastValueData x)) (fmt.v x)) ∧
    info fmt .other = "" := by
  refine ⟨?_, ?_, ?_, ?_, ?_, rfl⟩
  · intro row hrow
    refine ⟨?_, exportRow_eq fmt vd log row⟩
    rw [ExportView_eq]
    apply List.mem_append_right
    rw [List.mem_flatten]
    exact ⟨_, List.mem_map_of_mem _ hrow, by simp⟩
  · intro mn mx mean
    refine ⟨?_, rfl, ?_, ?_, ?_⟩
    · simp only [info, String.append_assoc]
      exact append_ne_empty _ _ (by decide)
    · have := containsText_mid "distribution: min=" (fmt.f1 mn)
        (" max=" ++ fmt.f1 mx ++ " mean=" ++ fmt.f1 mean)
      simpa [info, String.append_assoc] using this
    · have := containsText_mid ("distribution: min=" ++ fmt.f1 mn ++ " max=") (fmt.f1 mx)
        (" mean=" ++ fmt.f1 mean)
      simpa [info, String.append_assoc] using this
    · exact containsText_end _ _
  · intro n
    exact ⟨append_ne_empty _ _ (by decide), containsText_end _ _⟩
  · intro x
    exact ⟨append_ne_empty _ _ (by decide), containsText_end _ _⟩
  · intro x
    exact ⟨append_ne_empty _ _ (by decide), containsText_end _ _⟩

/-- Witness of C8 on a snapshot with one count row. -/
theorem ExportView_summary_text_witness :
    "count:        value=3\n" ∈ ExportView intFmt sampleData [] :=
  ((ExportView_summary_text intFmt sampleData []).1
    { Tags := [{ Key := "method", Value := "Get" }], Data := .CountData 3 }
    (by simp [sampleData])).1

/-- C9, counterexample. A snapshot with one untagged count row produces two
log messages, not one: the header with the time and the view name, then the
summary; and no message holds both the view name and the summary. -/
theorem ExportView_two_messages_per_row :
    ExportView intFmt untaggedData []
      = ["12:00:05 grpc.io/client/roundtrip_latency             ",
         "count:        value=3\n"] ∧
    (ExportView intFmt untaggedData []).length ≠ 1 ∧
    ∀ m ∈ ExportView intFmt untaggedData [],
      ¬ (containsText m untaggedData.Name ∧ containsText m (info intFmt (.CountData 3))) := by
  decide

/-- C9, amended. For every snapshot, `ExportView` appends to the log, for
each row in row order, one header message holding the time and the view name,
then one message with the summary of the row's data, then exactly one message
per tag of the row in tag order, each starting with the indent and holding the
tag's key and value; a snapshot with no rows appends nothing. -/
theorem ExportView_messages {F : Type} (fmt : FloatFmt F) (vd : Data F)
    (log : List String) :
    ExportView fmt vd log
      = log ++ (vd.Rows.map (fun row =>
          headerMessage vd.End vd.Name :: (info fmt row.Data ++ "\n")
            :: row.Tags.map tagMessage)).flatten ∧
    containsText (headerMessage vd.End vd.Name) vd.End.Format ∧
    containsText (headerMessage vd.End vd.Name) vd.Name ∧
    (∀ tag : Tag,
      indent.data <+: (tagMessage tag).data ∧
      containsText (tagMessage tag) tag.Key ∧
      containsText (tagMessage tag) tag.Value) ∧
    (∀ row : Row F, (row.Tags.map tagMessage).length = row.Tags.length) ∧
    ExportView fmt { vd with Rows := [] } log = log := by
  refine ⟨ExportView_eq fmt vd log, ?_, ?_, ?_, ?_, rfl⟩
  · exact ⟨[], (" " ++ leftJustify 45 vd.Name).data, by simp [headerMessage]⟩
  · exact ⟨(vd.End.Format ++ " ").data, (List.replicate (45 - vd.Name.length) ' '),
      by simp [headerMessage, leftJustify]⟩
  · intro tag
    refine ⟨⟨("- " ++ tag.Key ++ "=" ++ tag.Value ++ "\n").data, by simp [tagMessage]⟩, ?_, ?_⟩
    · exact ⟨(indent ++ "- ").data, ("=" ++ tag.Value ++ "\n").data, by simp [tagMessage]⟩
    · exact ⟨(indent ++ "- " ++ tag.Key ++ "=").data, ("\n" : String).data,
        by simp [tagMessage]⟩
  · intro row
    simp

/-- C10, counterexample. For the view `grpc.io/client/roundtrip_latency` the
header logged carries the name followed by thirteen spaces, which is not the
name left-padded to 45 characters; and the tag message carries a dash between
the indent and `key=value`. -/
theorem ExportView_header_not_left_padded :
    ExportView intFmt sampleData []
      = ["12:00:05 grpc.io/client/roundtrip_latency             ",
         "count:        value=3\n",
         "  - method=Get\n"] ∧
    (ExportView intFmt sampleData []).head?
      ≠ some (sampleData.End.Format ++ " " ++ specLeftPadded 45 sampleData.Name) ∧
    (ExportView intFmt sampleData [])[2]? ≠ some (indent ++ "method=Get") ∧
    (ExportView intFmt sampleData [])[2]? ≠ some (indent ++ "method=Get" ++ "\n") := by
  decide

/-- C10, amended. For every row, the header message is the end time as
`HH:MM:SS`, one space, then the view name followed by spaces up to a width of
45 characters (a name of 45 or more characters is printed unpadded and
untruncated); it is followed by the summary message and then one message per
tag of the form indent, dash, space, `key=value`. -/
theorem ExportView_row_format {F : Type} (fmt : FloatFmt F) (vd : Data F)
    (log : List String) (row : Row F) :
    exportRow fmt vd log row
      = log ++
          (vd.End.Format ++ " " ++ vd.Name
              ++ String.mk (List.replicate (45 - vd.Name.length) ' '))
          :: (info fmt row.Data ++ "\n")
          :: row.Tags.map (fun tag => indent ++ "- " ++ tag.Key ++ "=" ++ tag.Value ++ "\n") ∧
    vd.End.Format.data
      = [Nat.digitChar (vd.End.hour / 10 % 10), Nat.digitChar (vd.End.hour % 10), ':',
         Nat.digitChar (vd.End.minute / 10 % 10), Nat.digitChar (vd.End.minute % 10), ':',
         Nat.digitChar (vd.End.second / 10 % 10), Nat.digitChar (vd.End.second % 10)] ∧
    (leftJustify 45 vd.Name).length = max 45 vd.Name.length ∧
    (45 ≤ vd.Name.length → leftJustify 45 vd.Name = vd.Name) ∧
    (exportRow fmt vd log row).length = log.length + 2 + row.Tags.length := by
  refine ⟨?_, ?_, ?_, ?_, ?_⟩
  · rw [exportRow_eq]
    simp [headerMessage, leftJustify, String.append_assoc]
    intro a _
    simp [tagMessage, String.append_assoc]
  · simp [Time.Format, twoDigits]
  · have hpad : ∀ n : Nat, (String.mk (List.replicate n ' ')).length = n := by
      intro n
      show (List.replicate n ' ').length = n
      simp
    unfold leftJustify
    rw [String.length_append, hpad, Nat.max_def]
    split_ifs <;> omega
  · intro h
    have h0 : 45 - vd.Name.length = 0 := by omega
    apply String.ext
    simp [leftJustify, h0]
  · rw [exportRow_eq]
    simp
    omega

/-- Witness of C10 (amended): a view name of 45 characters is logged as is. -/
theorem ExportView_row_format_witness :
    leftJustify 45 "opencensus.io/http/server/response_bytes_long"
      = "opencensus.io/http/server/response_bytes_long" :=
  (ExportView_row_format intFmt
    { Name := "opencensus.io/http/server/response_bytes_long"
      End := { hour := 12, minute := 0, second := 5 }
      Rows := [] } [] { Tags := [], Data := .other }).2.2.2.1 (by decide)

end Perf
